import Mathlib

/-!
Shallow embedding of the Jellyfin-Manager container orchestration layer.

Sources embedded:
- src/core/docker_manager.py : ContainerState, DaemonState, DockerStatus,
  DockerManager (client, daemon probes, image probe/pull, container state,
  full status, create/start/stop container, log streaming).
- src/core/log_streamer.py   : LogStreamer.run, ImagePullWorker.run.
- src/core/config.py         : ConfigManager.load / add_media_path,
  AppConfig / ContainerConfig.
- src/ui/main_window.py      : MainWindow.closeEvent (teardown sequencing).

The engine (docker SDK) is modelled by an environment `Env` recording the
answers the engine would give to each query, and operations additionally
return the list of engine calls they perform, so that claims about
"sub-query not invoked" are statable.  Python exceptions are modelled with
`Except PyExc`; `docker.errors.NotFound` is a subclass of `APIError`, so
every `except APIError` clause in the source also catches `NotFound`.
-/

/-- Embedding of `ContainerState` enum (docker_manager.py lines 23-31). -/
inductive ContainerState where
  | not_found
  | created
  | running
  | paused
  | restarting
  | exited
  | dead
deriving DecidableEq, Repr

/-- The `.value` string of each `ContainerState` enum member. -/
def ContainerState.value : ContainerState → String
  | .not_found => "not_found"
  | .created => "created"
  | .running => "running"
  | .paused => "paused"
  | .restarting => "restarting"
  | .exited => "exited"
  | .dead => "dead"

/-- Python `ContainerState(status)` enum lookup by value: `some` on one of the
seven member values, `none` means the lookup raises `ValueError`. -/
def ContainerState.ofString (s : String) : Option ContainerState :=
  if s = "not_found" then some .not_found
  else if s = "created" then some .created
  else if s = "running" then some .running
  else if s = "paused" then some .paused
  else if s = "restarting" then some .restarting
  else if s = "exited" then some .exited
  else if s = "dead" then some .dead
  else none

/-- Embedding of `DaemonState` enum (docker_manager.py lines 34-38). -/
inductive DaemonState where
  | not_installed
  | stopped
  | running
deriving DecidableEq, Repr

/-- Outcome of one docker SDK call: normal result, `NotFound`, or `APIError`. -/
inductive ApiResult (α : Type) where
  | ok (a : α)
  | notFound
  | apiError (msg : String)
deriving DecidableEq, Repr

/-- The Python exceptions that appear in the embedded code paths.
`UnicodeDecodeError` is raised by `json.load` (while reading the file) when
the file's bytes are not valid UTF-8; it is a sibling of `JSONDecodeError`
under `ValueError`, not a subclass of it. -/
inductive PyExc where
  | valueError (msg : String)
  | typeError
  | jsonDecodeError
  | unicodeDecodeError
deriving DecidableEq, Repr

/-- One decoded line of the engine's streaming pull API: optional `status`
and `progress` fields. -/
structure PullLine where
  status : Option String
  progress : Option String
deriving DecidableEq, Repr

/-- Environment: the answers the host and the engine give to each query the
manager can make.  One `Env` value describes one consistent point-in-time
view of the outside world. -/
structure Env where
  /-- Whether `shutil.which("docker")` finds the executable. -/
  docker_installed : Bool
  /-- Whether the docker SDK import succeeded (`DOCKER_SDK_AVAILABLE`). -/
  sdk_available : Bool
  /-- Whether `docker.from_env()` + `ping()` succeeds (the client property yields a client). -/
  connect_ok : Bool
  /-- fallback `docker info` subprocess exits with code 0. -/
  cli_daemon_ok : Bool
  /-- Whether `systemctl is-enabled docker` prints `enabled` (timeouts folded to false). -/
  autostart_enabled : Bool
  /-- Result of `client.containers.get(name).status` for the managed name. -/
  container_status : ApiResult String
  /-- Result of `client.containers.get(name).short_id`. -/
  container_short_id : ApiResult String
  /-- Result of `client.images.get(image)`. -/
  image_present : ApiResult Unit
  /-- Result of `container.start()`. -/
  start_result : ApiResult Unit
  /-- Result of `container.stop(timeout=10)`. -/
  stop_result : ApiResult Unit
  /-- Result of `container.remove()`. -/
  remove_result : ApiResult Unit
  /-- Result of `client.containers.create(...)`; `ok` carries the new `short_id`. -/
  create_result : ApiResult String
  /-- decoded lines received from `client.api.pull(..., stream=True)` before
  the stream ends or fails. -/
  pull_lines : List PullLine
  /-- how the pull stream ends (`ok` = exhausted normally). -/
  pull_outcome : ApiResult Unit
  /-- Result of `client.images.get(image)` re-queried after the pull stream ended. -/
  image_present_after_pull : ApiResult Unit
  /-- lines produced by `container.logs(stream=True, follow=True)` before the
  stream ends or fails. -/
  log_lines : List String
  /-- how the log stream ends (`ok` = source ended normally). -/
  log_outcome : ApiResult Unit
deriving DecidableEq, Repr

/-- Whether `DockerManager.client` is usable: SDK importable and connect + ping ok. -/
def clientAvailable (e : Env) : Bool :=
  e.sdk_available && e.connect_ok

/-- Embedding of `DockerManager.is_docker_installed` (docker_manager.py lines 90-92). -/
def is_docker_installed (e : Env) : Bool :=
  e.docker_installed

/-- Embedding of `DockerManager.is_daemon_running` (docker_manager.py lines 94-108):
CLI fallback when the SDK is unavailable, otherwise client availability. -/
def is_daemon_running (e : Env) : Bool :=
  if e.sdk_available then clientAvailable e else e.cli_daemon_ok

/-- Embedding of `DockerManager.is_daemon_autostart_enabled` (lines 110-121); timeout and
missing systemctl are already folded to `false` in the Env field. -/
def is_daemon_autostart_enabled (e : Env) : Bool :=
  e.autostart_enabled

/-- Embedding of `DockerManager.is_image_pulled` (lines 208-219). -/
def is_image_pulled (e : Env) : Bool :=
  if clientAvailable e then
    match e.image_present with
    | .ok _ => true
    | .notFound => false
    | .apiError _ => false
  else false

/-- Embedding of `DockerManager.get_container_state` (lines 262-274).  The enum lookup
`ContainerState(status)` raises `ValueError` on a status string outside the
seven enum values, and that exception is not caught by the
`except NotFound` / `except APIError` clauses. -/
def get_container_state (e : Env) : Except PyExc ContainerState :=
  if clientAvailable e then
    match e.container_status with
    | .ok s =>
        match ContainerState.ofString s with
        | some c => .ok c
        | none => .error (.valueError s)
    | .notFound => .ok .not_found
    | .apiError _ => .ok .not_found
  else .ok .not_found

/-- Embedding of `DockerStatus` dataclass (docker_manager.py lines 41-49). -/
structure DockerStatus where
  daemon_state : DaemonState
  daemon_autostart : Bool
  container_state : ContainerState
  container_id : Option String := none
  image_pulled : Bool := false
  error_message : Option String := none
deriving DecidableEq, Repr

/-- The sub-queries `get_full_status` can make, for the invocation trace. -/
inductive SubQuery where
  | installed
  | daemonRunning
  | autostart
  | containerState
  | containerGet
  | imagePulled
deriving DecidableEq, Repr

/-- Embedding of `DockerManager.get_full_status` (lines 276-311), paired with the list of
sub-queries it performs on the given environment. -/
def get_full_status (e : Env) : Except PyExc DockerStatus × List SubQuery :=
  if is_docker_installed e = false then
    (.ok { daemon_state := .not_installed,
           daemon_autostart := false,
           container_state := .not_found,
           error_message := some ("Docker is not installed") },
     [.installed])
  else if is_daemon_running e = false then
    (.ok { daemon_state := .stopped,
           daemon_autostart := is_daemon_autostart_enabled e,
           container_state := .not_found },
     [.installed, .daemonRunning, .autostart])
  else
    match get_container_state e with
    | .error exc => (.error exc, [.installed, .daemonRunning, .containerState])
    | .ok cs =>
        let cid : Option String :=
          if cs ≠ .not_found then
            match e.container_short_id with
            | .ok s => some s
            | .notFound => none
            | .apiError _ => none
          else none
        (.ok { daemon_state := .running,
               daemon_autostart := is_daemon_autostart_enabled e,
               container_state := cs,
               container_id := cid,
               image_pulled := is_image_pulled e },
         [.installed, .daemonRunning, .containerState] ++
           (if cs ≠ .not_found then [.containerGet] else []) ++
           [.autostart, .imagePulled])

/-- Embedding of `ContainerConfig` dataclass (config.py lines 14-23).  Paths are modelled
as their (normalized) string form. -/
structure ContainerConfig where
  image : String := "jellyfin/jellyfin:latest"
  container_name : String := "jellyfin-manager"
  web_port : Nat := 8096
  config_mount : String := "/config"
  cache_mount : String := "/cache"
  media_mount_base : String := "/media"
deriving DecidableEq, Repr

/-- Embedding of `AppConfig` dataclass (config.py lines 26-54), in its well-typed form as
used by `DockerManager`.  `Path` values are modelled as normalized strings. -/
structure AppConfig where
  config_dir : String
  cache_dir : String
  media_paths : List String := []
  stop_daemon_on_exit : Bool := false
  enable_hw_accel : Bool := true
  hw_accel_type : String := "vaapi"
  container : ContainerConfig := {}
deriving DecidableEq, Repr

/-- Split a character list at `/` separators (structural helper for
`pathName`). -/
def splitPath : List Char → List Char → List (List Char)
  | [], acc => [acc.reverse]
  | c :: rest, acc =>
      if c = '/' then acc.reverse :: splitPath rest []
      else splitPath rest (c :: acc)

/-- Embedding of `pathlib.Path(p).name`: the last nonempty component of the path
(empty for the filesystem root). -/
def pathName (p : String) : String :=
  String.mk (((((splitPath p.data []).filter (fun cs => cs != [])).getLast?).getD []))

/-- Python `dict` insertion `d[k] = v` on an insertion-ordered association
list: replace in place when the key exists, append otherwise. -/
def dictInsert (d : List (String × String)) (k v : String) : List (String × String) :=
  if d.any (fun kv => kv.1 == k) then
    d.map (fun kv => if kv.1 == k then (k, v) else kv)
  else d ++ [(k, v)]

/-- The list of `bind` targets of a volumes dict
(`[v['bind'] for v in volumes.values()]`). -/
def binds (d : List (String × String)) : List String :=
  d.map (fun kv => kv.2)

/-- The mount point chosen for media folder `p` at index `i` given the
volumes built so far (docker_manager.py lines 341-344): the leaf name under
`media_mount_base`, with `_{i}` appended when that target is already bound. -/
def mediaMountPoint (cfg : AppConfig) (vols : List (String × String)) (i : Nat) (p : String) : String :=
  let mp := cfg.container.media_mount_base ++ "/" ++ pathName p
  if mp ∈ binds vols then
    cfg.container.media_mount_base ++ "/" ++ pathName p ++ "_" ++ toString i
  else mp

/-- The loop of docker_manager.py lines 340-348: fold the enumerated media
paths into the volumes dict. -/
def addMediaMounts (cfg : AppConfig) : List (Nat × String) → List (String × String) → List (String × String)
  | [], vols => vols
  | (i, p) :: rest, vols =>
      addMediaMounts cfg rest (dictInsert vols p (mediaMountPoint cfg vols i p))

/-- The volumes dict built by `create_container` (lines 327-348): config
mount, cache mount, then one mount per media folder. -/
def buildVolumes (cfg : AppConfig) : List (String × String) :=
  let vols :=
    dictInsert (dictInsert [] cfg.config_dir cfg.container.config_mount)
      cfg.cache_dir cfg.container.cache_mount
  addMediaMounts cfg cfg.media_paths.enum vols

/-- The keyword arguments handed to `client.containers.create(...)`
(docker_manager.py lines 359-368).  `restart_policy = none` would model the
keyword being omitted; the source always passes `{"Name": "no"}`, i.e.
`some "no"`. -/
structure CreateSpec where
  image : String
  name : String
  ports : List (String × Nat)
  volumes : List (String × String)
  environment : List (String × String)
  devices : List String
  restart_policy : Option String
  detach : Bool
deriving DecidableEq, Repr

/-- Embedding of `DockerManager.create_container` (lines 313-372): the `(ok, message)`
result paired with the creation spec handed to the engine (`none` when the
engine's create endpoint was never reached). -/
def create_container (e : Env) (cfg : AppConfig) : Except PyExc ((Bool × String) × Option CreateSpec) :=
  if clientAvailable e = false then
    .ok ((false, "Docker client not available"), none)
  else
    match get_container_state e with
    | .error exc => .error exc
    | .ok st =>
        if st ≠ ContainerState.not_found then
          .ok ((false, "Container already exists. Remove it first to recreate."), none)
        else
          let volumes := buildVolumes cfg
          let devices : List String :=
            if cfg.enable_hw_accel && cfg.hw_accel_type == "vaapi" then
              ["/dev/dri:/dev/dri"]
            else []
          let spec : CreateSpec :=
            { image := cfg.container.image,
              name := cfg.container.container_name,
              ports := [(toString cfg.container.web_port ++ "/tcp", cfg.container.web_port)],
              volumes := volumes,
              environment := [],
              devices := devices,
              restart_policy := some ("no"),
              detach := true }
          match e.create_result with
          | .ok sid =>
              .ok ((true, "Container created successfully (ID: " ++ sid ++ ")"), some spec)
          | .notFound =>
              .ok ((false, "Failed to create container: not found"), some spec)
          | .apiError m =>
              .ok ((false, "Failed to create container: " ++ m), some spec)

/-- Projection: the creation spec that `create_container` handed to the
engine, if any. -/
def handedSpec (r : Except PyExc ((Bool × String) × Option CreateSpec)) : Option CreateSpec :=
  match r with
  | .ok (_, s) => s
  | .error _ => none

/-- Projection: the bind targets of the handed creation spec, if any. -/
def handedBinds (r : Except PyExc ((Bool × String) × Option CreateSpec)) : Option (List String) :=
  (handedSpec r).map (fun s => binds s.volumes)

/-- One call against the engine's container endpoints. -/
inductive ECall where
  | containersGet
  | containerStart
  | containerStop (graceSeconds : Nat)
  | containerRemove
  | containersCreate
deriving DecidableEq, Repr

/-- Whether an engine call mutates engine state (everything except the
`containers.get` query). -/
def ECall.isMutation : ECall → Bool
  | .containersGet => false
  | .containerStart => true
  | .containerStop _ => true
  | .containerRemove => true
  | .containersCreate => true

/-- Effect of one engine call on the engine's state, as observed through the
container-status query. -/
def applyECall (e : Env) : ECall → Env
  | .containersGet => e
  | .containerStart => { e with container_status := .ok ("running") }
  | .containerStop _ => { e with container_status := .ok ("exited") }
  | .containerRemove => { e with container_status := .notFound }
  | .containersCreate => { e with container_status := .ok ("created") }

/-- Effect of a sequence of engine calls. -/
def applyECalls (e : Env) (cs : List ECall) : Env :=
  cs.foldl applyECall e

/-- Embedding of `DockerManager.start_container` (lines 374-397), paired with the engine
calls it performs. -/
def start_container (e : Env) : Except PyExc (Bool × String) × List ECall :=
  if clientAvailable e = false then
    (.ok (false, "Docker client not available"), [])
  else
    match get_container_state e with
    | .error exc => (.error exc, [.containersGet])
    | .ok .not_found =>
        (.ok (false, "Container does not exist. Run setup first."), [.containersGet])
    | .ok .running =>
        (.ok (true, "Container is already running"), [.containersGet])
    | .ok _ =>
        match e.start_result with
        | .ok _ =>
            (.ok (true, "Container started successfully"),
             [.containersGet, .containersGet, .containerStart])
        | .notFound =>
            (.ok (false, "Failed to start container: not found"),
             [.containersGet, .containersGet, .containerStart])
        | .apiError m =>
            (.ok (false, "Failed to start container: " ++ m),
             [.containersGet, .containersGet, .containerStart])

/-- Embedding of `DockerManager.stop_container` (lines 399-422), paired with the engine
calls it performs; the stop uses a 10 second grace period. -/
def stop_container (e : Env) : Except PyExc (Bool × String) × List ECall :=
  if clientAvailable e = false then
    (.ok (false, "Docker client not available"), [])
  else
    match get_container_state e with
    | .error exc => (.error exc, [.containersGet])
    | .ok .not_found =>
        (.ok (true, "Container does not exist"), [.containersGet])
    | .ok .exited =>
        (.ok (true, "Container is already stopped"), [.containersGet])
    | .ok _ =>
        match e.stop_result with
        | .ok _ =>
            (.ok (true, "Container stopped successfully"),
             [.containersGet, .containersGet, .containerStop 10])
        | .notFound =>
            (.ok (false, "Failed to stop container: not found"),
             [.containersGet, .containersGet, .containerStop 10])
        | .apiError m =>
            (.ok (false, "Failed to stop container: " ++ m),
             [.containersGet, .containersGet, .containerStop 10])

/-- Embedding of `DockerManager.stream_logs` (lines 474-492): the finite list of lines the
generator produces before it stops (the underlying `follow` stream is
infinite until the source ends; the environment records the produced
prefix and how the stream ended). -/
def stream_logs (e : Env) : List String :=
  if clientAvailable e = false then ["Docker client not available"]
  else
    match e.container_status with
    | .notFound => ["Container not found"]
    | .apiError m => ["Error streaming logs: " ++ m]
    | .ok _ =>
        e.log_lines ++
          (match e.log_outcome with
           | .ok _ => []
           | .notFound => ["Container not found"]
           | .apiError m => ["Error streaming logs: " ++ m])

/-- The Qt signals `LogStreamer` can emit. -/
inductive LogEvent where
  | line (s : String)
  | error (s : String)
  | stopped
deriving DecidableEq, Repr

/-- The `str(e)` message of an embedded Python exception. -/
def PyExc.message : PyExc → String
  | .valueError m => m ++ " is not a valid ContainerState"
  | .typeError => "TypeError"
  | .jsonDecodeError => "JSONDecodeError"
  | .unicodeDecodeError => "UnicodeDecodeError"

/-- The `for line in stream_logs()` loop of `LogStreamer.run` (log_streamer.py
lines 41-47): before emitting each line the stop flag is checked;
`stopAfter = some k` means the flag is observed set at the k-th check,
`none` means stop is never requested. -/
def relayLoop : List String → Option Nat → List LogEvent
  | [], _ => []
  | _ :: _, some 0 => []
  | l :: ls, some (k + 1) => .line l :: relayLoop ls (some k)
  | l :: ls, none => .line l :: relayLoop ls none

/-- Embedding of `LogStreamer.run` (log_streamer.py lines 30-53): the full sequence of
signals emitted during one execution.  The trailing `stopped` comes from the
`finally` block, which also runs after the early `return` of the
precondition-failure path. -/
def logStreamerRun (e : Env) (stopAfter : Option Nat) : List LogEvent :=
  (match get_container_state e with
   | .ok s =>
       if s ≠ ContainerState.running then
         [.error ("Container is not running (state: " ++ s.value ++ ")"), .stopped]
       else relayLoop (stream_logs e) stopAfter
   | .error exc => [.error ("Log streaming error: " ++ exc.message)]) ++
  [.stopped]

/-- A Python value yielded by the pull generator (`isinstance(message, bool)`
is tested against it in `ImagePullWorker.run`). -/
inductive PyVal where
  | str (s : String)
  | pybool (b : Bool)
deriving DecidableEq, Repr

/-- Embedding of `DockerManager.pull_image` (lines 221-256): the values the generator
yields, and its `return` value (which Python iteration never yields). -/
def pull_image (e : Env) (cfg : AppConfig) : List PyVal × Bool :=
  if clientAvailable e = false then
    ([PyVal.str ("Error: Docker client not available")], false)
  else
    let progress := e.pull_lines.filterMap (fun l =>
      match l.status with
      | some st =>
          some (PyVal.str (match l.progress with
            | some p => st ++ ": " ++ p
            | none => st))
      | none => none)
    let intro := PyVal.str ("Pulling " ++ cfg.container.image ++ "...")
    match e.pull_outcome with
    | .ok _ => (intro :: progress ++ [PyVal.str ("Image pulled successfully!")], true)
    | .notFound => (intro :: progress ++ [PyVal.str ("Error pulling image: not found")], false)
    | .apiError m => (intro :: progress ++ [PyVal.str ("Error pulling image: " ++ m)], false)

/-- Embedding of `DockerManager.is_image_pulled` as re-queried after the pull stream has
ended (the engine may answer differently than before the pull). -/
def is_image_pulled_after (e : Env) : Bool :=
  if clientAvailable e then
    match e.image_present_after_pull with
    | .ok _ => true
    | .notFound => false
    | .apiError _ => false
  else false

/-- Embedding of `ImagePullWorker.run` (log_streamer.py lines 79-95): the emitted progress
messages and the final `finished` payload.  The loop accumulates a success
flag from any boolean the generator might yield, but the flag is then
overwritten by the post-pull `is_image_pulled()` check. -/
def imagePullWorkerRun (e : Env) (cfg : AppConfig) : List String × Bool :=
  let msgs := (pull_image e cfg).1
  let folded := msgs.foldl
    (fun acc m =>
      match m with
      | PyVal.str s => (acc.1 ++ [s], acc.2)
      | PyVal.pybool b => (acc.1, b))
    (([] : List String), false)
  (folded.1, is_image_pulled_after e)

/-- Outcome of one `subprocess.run` invocation of a privileged helper. -/
inductive ProcResult where
  | exit (code : Nat) (stderrMsg : String)
  | timeout
  | toolMissing
deriving DecidableEq, Repr

/-- Embedding of `DockerManager.stop_daemon` (lines 177-202), with the subprocess outcome
supplied alongside the environment. -/
def stop_daemon (e : Env) (proc : ProcResult) : Bool × String :=
  if is_daemon_running e = false then (true, "Docker daemon is already stopped")
  else
    match proc with
    | .exit 0 _ => (true, "Docker daemon stopped successfully")
    | .exit _ m => (false, "Failed to stop daemon: " ++ m)
    | .timeout => (false, "Operation timed out")
    | .toolMissing => (false, "systemctl not found")

/-- The answer chosen in the "Container Running" question dialog. -/
inductive Reply where
  | yes
  | no
  | cancel
deriving DecidableEq, Repr

/-- The observable steps of `MainWindow.closeEvent` (main_window.py lines
253-290), in execution order. -/
inductive CloseAction where
  | stopLogStreaming
  | stopStatusPolling
  | queryContainerState
  | askUser
  | callStopContainer
  | readStopDaemonPref
  | queryDaemonRunning
  | callStopDaemon
  | warnDaemonStopFailed (msg : String)
deriving DecidableEq, Repr

/-- Inputs of one `closeEvent` execution: the world at the first
container-state check, the dialog answer, the persisted preference, the
world at the later daemon-branch checks, and the `systemctl stop` outcome. -/
structure CloseEnv where
  env1 : Env
  reply : Reply
  stop_daemon_on_exit : Bool
  env2 : Env
  daemon_stop_proc : ProcResult
deriving DecidableEq, Repr

/-- Lines 275-288 of main_window.py: consult `stop_daemon_on_exit`; when set
and the daemon runs, re-check the container, stop it if (still) running
(result ignored), then stop the daemon and warn on failure. -/
def closeEventDaemonPhase (ce : CloseEnv) (acc : List CloseAction) :
    Except PyExc (Bool × List CloseAction) :=
  let acc := acc ++ [CloseAction.readStopDaemonPref]
  if ce.stop_daemon_on_exit then
    let acc := acc ++ [CloseAction.queryDaemonRunning]
    if is_daemon_running ce.env2 then
      match get_container_state ce.env2 with
      | .error exc => .error exc
      | .ok st2 =>
          let acc := acc ++ [CloseAction.queryContainerState] ++
            (if st2 = ContainerState.running then [CloseAction.callStopContainer] else [])
          let acc := acc ++ [CloseAction.callStopDaemon]
          let r := stop_daemon ce.env2 ce.daemon_stop_proc
          if r.1 then .ok (true, acc)
          else .ok (true, acc ++ [CloseAction.warnDaemonStopFailed r.2])
    else .ok (true, acc)
  else .ok (true, acc)

/-- Embedding of `MainWindow.closeEvent` (main_window.py lines 253-290): whether the close
is accepted, and the trace of observable steps.  A `Cancel` reply ignores the
event and returns; `Yes` stops the container; `No` falls through to the
daemon phase. -/
def closeEvent (ce : CloseEnv) : Except PyExc (Bool × List CloseAction) :=
  let pre := [CloseAction.stopLogStreaming, CloseAction.stopStatusPolling,
              CloseAction.queryContainerState]
  match get_container_state ce.env1 with
  | .error exc => .error exc
  | .ok st1 =>
      if st1 = ContainerState.running then
        match ce.reply with
        | Reply.cancel => .ok (false, pre ++ [CloseAction.askUser])
        | Reply.no => closeEventDaemonPhase ce (pre ++ [CloseAction.askUser])
        | Reply.yes =>
            closeEventDaemonPhase ce
              (pre ++ [CloseAction.askUser, CloseAction.callStopContainer])
      else closeEventDaemonPhase ce pre

/-- In-memory and on-disk media-path lists of a `ConfigManager`
(config.py: `self._config.media_paths` and the persisted file; `save()`
rewrites the file from memory). -/
structure CfgPersist where
  mem : List String
  disk : List String
deriving DecidableEq, Repr

/-- A `ConfigManager` whose config was just loaded from disk: memory mirrors
the persisted list. -/
def loadPersist (d : List String) : CfgPersist :=
  { mem := d, disk := d }

/-- Embedding of `ConfigManager.add_media_path` (config.py lines 111-115): append and save
only when the path is not already present (`Path` values are modelled as
normalized strings). -/
def add_media_path (s : CfgPersist) (p : String) : CfgPersist :=
  if p ∈ s.mem then s
  else { mem := s.mem ++ [p], disk := s.mem ++ [p] }

/-- A JSON value, as produced by `json.load`. -/
inductive J where
  | null
  | jbool (b : Bool)
  | num (n : Int)
  | str (s : String)
  | arr (xs : List J)
  | obj (kvs : List (String × J))

/-- The fields of the `AppConfig` dataclass after `AppConfig(**data)` on
arbitrary JSON: Python performs no type coercion beyond `__post_init__`, so
each field holds whatever JSON value was supplied. -/
structure PyAppConfig where
  config_dir : J
  cache_dir : J
  media_paths : List J
  stop_daemon_on_exit : J
  enable_hw_accel : J
  hw_accel_type : J
  container : J

/-- The default `AppConfig()` (config.py lines 26-44), with `Path` defaults
rendered as strings and the default `ContainerConfig` as a JSON object. -/
def defaultPyAppConfig : PyAppConfig :=
  { config_dir := J.str ("~/.jellyfin-manager/config"),
    cache_dir := J.str ("~/.jellyfin-manager/cache"),
    media_paths := [],
    stop_daemon_on_exit := J.jbool false,
    enable_hw_accel := J.jbool true,
    hw_accel_type := J.str ("vaapi"),
    container := J.obj [("image", J.str ("jellyfin/jellyfin:latest")),
                        ("container_name", J.str ("jellyfin-manager")),
                        ("web_port", J.num 8096),
                        ("config_mount", J.str ("/config")),
                        ("cache_mount", J.str ("/cache")),
                        ("media_mount_base", J.str ("/media"))] }

/-- Keyword names accepted by `AppConfig.__init__`. -/
def appConfigKeys : List String :=
  ["config_dir", "cache_dir", "media_paths", "stop_daemon_on_exit",
   "enable_hw_accel", "hw_accel_type", "container"]

/-- Keyword names accepted by `ContainerConfig.__init__`. -/
def containerConfigKeys : List String :=
  ["image", "container_name", "web_port", "config_mount", "cache_mount",
   "media_mount_base"]

/-- Dictionary lookup on a JSON object. -/
def jGet (kvs : List (String × J)) (k : String) : Option J :=
  ((kvs.find? (fun kv => kv.1 == k)).map (fun kv => kv.2))

/-- Embedding of `Path(x) if isinstance(x, str) else x` from `__post_init__`: a `Path` is
modelled by its string. -/
def coercePath (v : J) : J :=
  match v with
  | J.str s => J.str s
  | other => other

/-- Embedding of `[Path(p) if isinstance(p, str) else p for p in media_paths]`: iterating
a list yields its items, a string its characters, a dict its keys; any other
value raises `TypeError` (not iterable). -/
def coerceMedia : J → Except PyExc (List J)
  | J.arr xs => Except.ok (xs.map coercePath)
  | J.str s => Except.ok (s.data.map (fun c => J.str (String.mk [c])))
  | J.obj kvs => Except.ok (kvs.map (fun kv => J.str kv.1))
  | _ => Except.error PyExc.typeError

/-- Embedding of `ContainerConfig(**container) if isinstance(container, dict) else
container` from `__post_init__`: an unexpected keyword raises `TypeError`;
a non-dict is kept as-is. -/
def coerceContainer : J → Except PyExc J
  | J.obj kvs =>
      if kvs.all (fun kv => containerConfigKeys.contains kv.1) then
        Except.ok (J.obj kvs)
      else Except.error PyExc.typeError
  | other => Except.ok other

/-- Embedding of `AppConfig(**data)` on a parsed JSON value: `TypeError` when the value is
not a mapping or an unexpected keyword is passed; then the `__post_init__`
coercions run (all dataclass fields have defaults, so absent keys fall back
to them). -/
def pyAppConfigOfJson : J → Except PyExc PyAppConfig
  | J.obj kvs =>
      if kvs.all (fun kv => appConfigKeys.contains kv.1) then
        match coerceMedia ((jGet kvs ("media_paths")).getD (J.arr [])) with
        | Except.error exc => Except.error exc
        | Except.ok media =>
            match coerceContainer ((jGet kvs ("container")).getD
                defaultPyAppConfig.container) with
            | Except.error exc => Except.error exc
            | Except.ok cont =>
                Except.ok
                  { config_dir :=
                      coercePath ((jGet kvs ("config_dir")).getD
                        defaultPyAppConfig.config_dir),
                    cache_dir :=
                      coercePath ((jGet kvs ("cache_dir")).getD
                        defaultPyAppConfig.cache_dir),
                    media_paths := media,
                    stop_daemon_on_exit :=
                      (jGet kvs ("stop_daemon_on_exit")).getD (J.jbool false),
                    enable_hw_accel :=
                      (jGet kvs ("enable_hw_accel")).getD (J.jbool true),
                    hw_accel_type :=
                      (jGet kvs ("hw_accel_type")).getD (J.str ("vaapi")),
                    container := cont }
      else Except.error PyExc.typeError
  | _ => Except.error PyExc.typeError

/-- What the config file on disk can look like to `load()`: absent, present
with bytes that are not valid UTF-8 (undecodable as text), present and
decodable but not parseable as JSON, or parsed JSON. -/
inductive DiskState where
  | missing
  | undecodableBytes
  | malformedJson
  | wellFormed (d : J)

/-- The `try` body of `ConfigManager.load` for an existing file (config.py
lines 76-79): decode and parse, then `AppConfig(**data)`.  Undecodable bytes
make `json.load` raise `UnicodeDecodeError` while reading; decodable text
that is not valid JSON makes it raise `JSONDecodeError`. -/
def loadBody : DiskState → Except PyExc PyAppConfig
  | DiskState.missing => Except.ok defaultPyAppConfig
  | DiskState.undecodableBytes => Except.error PyExc.unicodeDecodeError
  | DiskState.malformedJson => Except.error PyExc.jsonDecodeError
  | DiskState.wellFormed d => pyAppConfigOfJson d

/-- The `except (json.JSONDecodeError, TypeError)` clause (config.py line
80): those two exceptions fall back to the default config, anything else
propagates. -/
def catchLoadExc (r : Except PyExc PyAppConfig) : Except PyExc PyAppConfig :=
  match r with
  | Except.error PyExc.jsonDecodeError => Except.ok defaultPyAppConfig
  | Except.error PyExc.typeError => Except.ok defaultPyAppConfig
  | other => other

/-- Embedding of `ConfigManager.load` (config.py lines 73-83). -/
def ConfigManager.load (s : DiskState) : Except PyExc PyAppConfig :=
  match s with
  | DiskState.missing => Except.ok defaultPyAppConfig
  | other => catchLoadExc (loadBody other)

/-- Baseline concrete environment: engine installed, SDK importable, daemon
unreachable, nothing found. -/
def envStopped : Env :=
  { docker_installed := true,
    sdk_available := true,
    connect_ok := false,
    cli_daemon_ok := false,
    autostart_enabled := false,
    container_status := ApiResult.notFound,
    container_short_id := ApiResult.notFound,
    image_present := ApiResult.notFound,
    start_result := ApiResult.ok (),
    stop_result := ApiResult.ok (),
    remove_result := ApiResult.ok (),
    create_result := ApiResult.ok ("1a2b3c4d"),
    pull_lines := [],
    pull_outcome := ApiResult.ok (),
    image_present_after_pull := ApiResult.notFound,
    log_lines := [],
    log_outcome := ApiResult.ok () }

/-- Daemon reachable, managed container reported `running`. -/
def envRunningC : Env :=
  { envStopped with
    connect_ok := true,
    container_status := ApiResult.ok ("running"),
    container_short_id := ApiResult.ok ("1a2b3c4d"),
    image_present := ApiResult.ok () }

/-- Daemon reachable, managed container reported `exited`. -/
def envExitedC : Env :=
  { envStopped with
    connect_ok := true,
    container_status := ApiResult.ok ("exited") }

/-- Daemon reachable, no managed container, creation succeeds. -/
def envCreateOk : Env :=
  { envStopped with
    connect_ok := true,
    image_present := ApiResult.ok () }

/-- Daemon reachable, engine reports the real docker container status
`removing`, which is absent from the `ContainerState` enum. -/
def envRemoving : Env :=
  { envStopped with
    connect_ok := true,
    container_status := ApiResult.ok ("removing") }

/-- Three media folders that defeat the disambiguation: the third folder's
plain target collides, and its indexed replacement collides with the second
folder's plain target. -/
def cfgCollide : AppConfig :=
  { config_dir := "/home/user/.jellyfin-manager/config",
    cache_dir := "/home/user/.jellyfin-manager/cache",
    media_paths := ["/x/Movies", "/y/Movies_2", "/z/Movies"] }

/-- Two media folders with the same leaf name, otherwise unremarkable. -/
def cfgPair : AppConfig :=
  { config_dir := "/home/user/.jellyfin-manager/config",
    cache_dir := "/home/user/.jellyfin-manager/cache",
    media_paths := ["/a/Movies", "/b/Movies"] }

/-- Container reported running, `No` chosen in the dialog, stop-daemon
preference set. -/
def closeEnvNo : CloseEnv :=
  { env1 := envRunningC,
    reply := Reply.no,
    stop_daemon_on_exit := true,
    env2 := envRunningC,
    daemon_stop_proc := ProcResult.exit 0 "" }

/-- Same situation as `closeEnvNo` but the dialog is cancelled. -/
def closeEnvCancel : CloseEnv :=
  { closeEnvNo with reply := Reply.cancel }

/-- Pull stream ends in an engine error, but the image turns out present. -/
def envPullErrStream : Env :=
  { envCreateOk with
    pull_lines := [{ status := some ("Downloading"), progress := some ("12%") }],
    pull_outcome := ApiResult.apiError ("connection reset"),
    image_present_after_pull := ApiResult.ok () }

/-- Pull stream ends with the success banner, image also present. -/
def envPullOkStream : Env :=
  { envCreateOk with
    pull_lines := [{ status := some ("Pull complete"), progress := none }],
    pull_outcome := ApiResult.ok (),
    image_present_after_pull := ApiResult.ok () }

/-- C1: for every status query in which the daemon state is not `Running`
(engine not installed, or daemon stopped), `get_full_status()` returns a
snapshot with `container_state = NotFound` and `image_pulled = false`, and
the container-state and image-presence sub-queries are not invoked at all. -/
theorem get_full_status_short_circuits (e : Env)
    (h : is_docker_installed e = false ∨ is_daemon_running e = false) :
    ∃ st : DockerStatus,
      (get_full_status e).1 = Except.ok st ∧
      st.container_state = ContainerState.not_found ∧
      st.image_pulled = false ∧
      SubQuery.containerState ∉ (get_full_status e).2 ∧
      SubQuery.imagePulled ∉ (get_full_status e).2 := by
  by_cases hi : is_docker_installed e = false
  · refine ⟨{ daemon_state := DaemonState.not_installed, daemon_autostart := false,
              container_state := ContainerState.not_found,
              error_message := some ("Docker is not installed") }, ?_, rfl, rfl, ?_, ?_⟩ <;>
      simp [get_full_status, hi]
  · have hi' : is_docker_installed e = true := by
      revert hi; cases is_docker_installed e <;> simp
    have hd : is_daemon_running e = false := by
      rcases h with h | h
      · exact absurd h hi
      · exact h
    refine ⟨{ daemon_state := DaemonState.stopped,
              daemon_autostart := is_daemon_autostart_enabled e,
              container_state := ContainerState.not_found }, ?_, rfl, rfl, ?_, ?_⟩ <;>
      simp [get_full_status, hi', hd]

/-- C1 witness: a concrete stopped-daemon environment satisfying the
hypothesis, with the guaranteed snapshot shape. -/
theorem get_full_status_short_circuits_witness :
    (is_docker_installed envStopped = false ∨ is_daemon_running envStopped = false) ∧
    (∃ st : DockerStatus,
      (get_full_status envStopped).1 = Except.ok st ∧
      st.container_state = ContainerState.not_found ∧
      st.image_pulled = false ∧
      SubQuery.containerState ∉ (get_full_status envStopped).2 ∧
      SubQuery.imagePulled ∉ (get_full_status envStopped).2) :=
  ⟨Or.inr (by decide),
   get_full_status_short_circuits envStopped (Or.inr (by decide))⟩


/-- C5: refuted on the code.  `get_container_state()` maps absent container
and API errors to `NotFound`, but on the engine-reported container status
string `"removing"` (a real docker lifecycle state missing from the enum)
the lookup `ContainerState(status)` raises an uncaught `ValueError`, so the
query does not return a `ContainerState` value for every engine response. -/
theorem get_container_state_raises_on_removing :
    get_container_state envRemoving = Except.error (PyExc.valueError ("removing")) ∧
    get_container_state { envRemoving with container_status := ApiResult.notFound } =
      Except.ok ContainerState.not_found ∧
    get_container_state { envRemoving with container_status := ApiResult.apiError ("boom") } =
      Except.ok ContainerState.not_found := by
  refine ⟨?_, ?_, ?_⟩ <;> rfl

/-- C2: refuted on the code.  On the precondition-failure exit path of
`LogStreamer.run` (container not `Running`) the terminal `stopped` signal is
emitted twice: once explicitly before the early `return`, and once more by
the `finally` block, so the terminal event is not raised exactly once on
every exit path.  On the normal stream-exhaustion path it is emitted once. -/
theorem logStreamerRun_double_stopped :
    logStreamerRun envExitedC none =
      [LogEvent.error ("Container is not running (state: exited)"),
       LogEvent.stopped, LogEvent.stopped] ∧
    (logStreamerRun envExitedC none).count LogEvent.stopped = 2 ∧
    (logStreamerRun envRunningC none).count LogEvent.stopped = 1 := by
  refine ⟨?_, ?_, ?_⟩ <;> rfl

/-- C6: `start_container()` on an already-running container and
`stop_container()` on an absent or exited container succeed with the
corresponding message, perform no engine mutation call (only the
`containers.get` state query), and — since engine state is untouched —
repeating the call yields the same result. -/
theorem start_stop_idempotent (e : Env) (hc : clientAvailable e = true) :
    (e.container_status = ApiResult.ok ("running") →
       start_container e =
         (Except.ok (true, "Container is already running"), [ECall.containersGet]) ∧
       (∀ c ∈ (start_container e).2, c.isMutation = false) ∧
       start_container (applyECalls e (start_container e).2) = start_container e) ∧
    (e.container_status = ApiResult.notFound →
       stop_container e =
         (Except.ok (true, "Container does not exist"), [ECall.containersGet]) ∧
       (∀ c ∈ (stop_container e).2, c.isMutation = false) ∧
       stop_container (applyECalls e (stop_container e).2) = stop_container e) ∧
    (e.container_status = ApiResult.ok ("exited") →
       stop_container e =
         (Except.ok (true, "Container is already stopped"), [ECall.containersGet]) ∧
       (∀ c ∈ (stop_container e).2, c.isMutation = false) ∧
       stop_container (applyECalls e (stop_container e).2) = stop_container e) := by
  refine ⟨fun h => ?_, fun h => ?_, fun h => ?_⟩
  · have h1 : start_container e =
        (Except.ok (true, "Container is already running"), [ECall.containersGet]) := by
      simp [start_container, get_container_state, hc, h, ContainerState.ofString]
    refine ⟨h1, ?_, ?_⟩
    · rw [h1]
      intro c hm
      simp only [List.mem_singleton] at hm
      subst hm
      rfl
    · rw [h1]
      exact h1
  · have h1 : stop_container e =
        (Except.ok (true, "Container does not exist"), [ECall.containersGet]) := by
      simp [stop_container, get_container_state, hc, h]
    refine ⟨h1, ?_, ?_⟩
    · rw [h1]
      intro c hm
      simp only [List.mem_singleton] at hm
      subst hm
      rfl
    · rw [h1]
      exact h1
  · have h1 : stop_container e =
        (Except.ok (true, "Container is already stopped"), [ECall.containersGet]) := by
      simp [stop_container, get_container_state, hc, h, ContainerState.ofString]
    refine ⟨h1, ?_, ?_⟩
    · rw [h1]
      intro c hm
      simp only [List.mem_singleton] at hm
      subst hm
      rfl
    · rw [h1]
      exact h1

/-- C6 witness: the hypotheses hold at the concrete running-container
environment, and the guaranteed behavior follows. -/
theorem start_stop_idempotent_witness :
    clientAvailable envRunningC = true ∧
    envRunningC.container_status = ApiResult.ok ("running") ∧
    ((envRunningC.container_status = ApiResult.ok ("running") →
       start_container envRunningC =
         (Except.ok (true, "Container is already running"), [ECall.containersGet]) ∧
       (∀ c ∈ (start_container envRunningC).2, c.isMutation = false) ∧
       start_container (applyECalls envRunningC (start_container envRunningC).2) =
         start_container envRunningC) ∧
     (envRunningC.container_status = ApiResult.notFound →
       stop_container envRunningC =
         (Except.ok (true, "Container does not exist"), [ECall.containersGet]) ∧
       (∀ c ∈ (stop_container envRunningC).2, c.isMutation = false) ∧
       stop_container (applyECalls envRunningC (stop_container envRunningC).2) =
         stop_container envRunningC) ∧
     (envRunningC.container_status = ApiResult.ok ("exited") →
       stop_container envRunningC =
         (Except.ok (true, "Container is already stopped"), [ECall.containersGet]) ∧
       (∀ c ∈ (stop_container envRunningC).2, c.isMutation = false) ∧
       stop_container (applyECalls envRunningC (stop_container envRunningC).2) =
         stop_container envRunningC)) :=
  ⟨by decide, by decide, start_stop_idempotent envRunningC (by decide)⟩

lemma str_data_append (a b : String) : (a ++ b).data = a.data ++ b.data := by
  rw [String.congr_append]

lemma str_append_assoc (a b c : String) : a ++ b ++ c = a ++ (b ++ c) := by
  have h : (a ++ b ++ c).data = (a ++ (b ++ c)).data := by
    rw [str_data_append, str_data_append, str_data_append, str_data_append, List.append_assoc]
  exact String.toList_inj.mp h

lemma mediaTarget_ne_config (x : String) : ("/media/" ++ x : String) ≠ "/config" := by
  intro h
  have hd : ("/media/" : String).data ++ x.data = ("/config" : String).data := by
    rw [← str_data_append]
    exact congrArg String.data h
  have hlen := congrArg List.length hd
  simp only [List.length_append] at hlen
  have h7 : (("/media/" : String).data).length = 7 := rfl
  have h7b : (("/config" : String).data).length = 7 := rfl
  rw [h7, h7b] at hlen
  have hx : x.data = [] := List.length_eq_zero.mp (by omega)
  rw [hx, List.append_nil] at hd
  exact absurd hd (by decide)

lemma mediaTarget_ne_cache (x : String) : ("/media/" ++ x : String) ≠ "/cache" := by
  intro h
  have hd : ("/media/" : String).data ++ x.data = ("/cache" : String).data := by
    rw [← str_data_append]
    exact congrArg String.data h
  have hlen := congrArg List.length hd
  simp only [List.length_append] at hlen
  have h7 : (("/media/" : String).data).length = 7 := rfl
  have h6 : (("/cache" : String).data).length = 6 := rfl
  rw [h7, h6] at hlen
  omega

lemma mediaTarget_eq_iff (x y : String) : ("/media/" ++ x : String) = "/media/" ++ y ↔ x = y := by
  constructor
  · intro h
    have hd : ("/media/" : String).data ++ x.data = ("/media/" : String).data ++ y.data := by
      rw [← str_data_append, ← str_data_append]
      exact congrArg String.data h
    exact String.toList_inj.mp (List.append_cancel_left hd)
  · intro h
    rw [h]

lemma mediaTarget_ne_extended (x t : String) (ht : t ≠ "") :
    ("/media/" ++ x : String) ≠ "/media/" ++ (x ++ t) := by
  intro h
  have hd := congrArg String.data h
  rw [str_data_append, str_data_append, str_data_append] at hd
  have hlen := congrArg List.length hd
  simp only [List.length_append] at hlen
  have htl : t.data.length ≠ 0 := by
    intro h0
    exact ht (String.toList_inj.mp (List.length_eq_zero.mp h0))
  omega

lemma nodup4 (a b c d : String) (hab : a ≠ b) (hac : a ≠ c) (had : a ≠ d)
    (hbc : b ≠ c) (hbd : b ≠ d) (hcd : c ≠ d) : ([a, b, c, d] : List String).Nodup := by
  simp [List.nodup_cons, List.mem_cons, hab, hac, had, hbc, hbd, hcd]

lemma targets2_nodup (n m : String) :
    (["/config", "/cache", "/media/" ++ n,
      if m = n then ("/media/") ++ (n ++ "_1") else ("/media/") ++ m] : List String).Nodup := by
  by_cases hm : m = n
  · rw [if_pos hm]
    exact nodup4 _ _ _ _ (by decide)
      (Ne.symm (mediaTarget_ne_config n)) (Ne.symm (mediaTarget_ne_config (n ++ "_1")))
      (Ne.symm (mediaTarget_ne_cache n)) (Ne.symm (mediaTarget_ne_cache (n ++ "_1")))
      (mediaTarget_ne_extended n ("_1") (by decide))
  · rw [if_neg hm]
    exact nodup4 _ _ _ _ (by decide)
      (Ne.symm (mediaTarget_ne_config n)) (Ne.symm (mediaTarget_ne_config m))
      (Ne.symm (mediaTarget_ne_cache n)) (Ne.symm (mediaTarget_ne_cache m))
      (fun h => hm ((mediaTarget_eq_iff n m).mp h).symm)

lemma strlit1 : (("/media" : String) ++ "/") = "/media/" := by decide

lemma append_underscore_one (a b : String) :
    a ++ b ++ "_" ++ toString (1 : Nat) = a ++ (b ++ "_1") := by
  have h : (a ++ b ++ "_" ++ toString (1 : Nat)).data = (a ++ (b ++ "_1")).data := by
    rw [str_data_append, str_data_append, str_data_append, str_data_append, str_data_append]
    have h1 : (toString (1 : Nat) : String).data = ['1'] := by decide
    have h2 : ("_" : String).data = ['_'] := rfl
    have h3 : ("_1" : String).data = ['_', '1'] := rfl
    rw [h1, h2, h3]
    simp [List.append_assoc]
  exact String.toList_inj.mp h

lemma buildVolumes_pair (cfg : AppConfig) (p1 p2 : String)
    (hm : cfg.media_paths = [p1, p2])
    (hcc : cfg.container = {})
    (hp : p1 ≠ p2)
    (h12 : cfg.config_dir ≠ cfg.cache_dir)
    (hd1 : cfg.config_dir ≠ p1) (hd2 : cfg.config_dir ≠ p2)
    (he1 : cfg.cache_dir ≠ p1) (he2 : cfg.cache_dir ≠ p2) :
    binds (buildVolumes cfg) =
      ["/config", "/cache", "/media/" ++ pathName p1,
       if pathName p2 = pathName p1 then ("/media/") ++ (pathName p1 ++ "_1")
       else ("/media/") ++ pathName p2] := by
  have hbase : cfg.container.media_mount_base = "/media" := by rw [hcc]
  have hcm : cfg.container.config_mount = "/config" := by rw [hcc]
  have hca : cfg.container.cache_mount = "/cache" := by rw [hcc]
  have h0 : dictInsert [] cfg.config_dir ("/config") = [(cfg.config_dir, "/config")] := by
    simp [dictInsert]
  have h1 : dictInsert [(cfg.config_dir, "/config")] cfg.cache_dir ("/cache")
      = [(cfg.config_dir, "/config"), (cfg.cache_dir, "/cache")] := by
    simp [dictInsert, beq_iff_eq, h12]
  have hmp1 : mediaMountPoint cfg [(cfg.config_dir, "/config"), (cfg.cache_dir, "/cache")] 0 p1
      = "/media/" ++ pathName p1 := by
    unfold mediaMountPoint
    rw [hbase, strlit1]
    rw [if_neg ?hc1]
    case hc1 =>
      simp [binds, List.mem_cons, mediaTarget_ne_config, mediaTarget_ne_cache]
  have hv2 : dictInsert [(cfg.config_dir, "/config"), (cfg.cache_dir, "/cache")] p1
        ("/media/" ++ pathName p1)
      = [(cfg.config_dir, "/config"), (cfg.cache_dir, "/cache"),
         (p1, "/media/" ++ pathName p1)] := by
    simp [dictInsert, beq_iff_eq, hd1, he1]
  have hmp2 : mediaMountPoint cfg
        [(cfg.config_dir, "/config"), (cfg.cache_dir, "/cache"),
         (p1, "/media/" ++ pathName p1)] 1 p2
      = (if pathName p2 = pathName p1 then ("/media/") ++ (pathName p1 ++ "_1")
         else ("/media/") ++ pathName p2) := by
    unfold mediaMountPoint
    rw [hbase, strlit1]
    by_cases hn : pathName p2 = pathName p1
    · rw [if_pos (by simp [binds, List.mem_cons, hn]), if_pos hn, hn]
      exact append_underscore_one ("/media/") (pathName p1)
    · rw [if_neg ?hc2, if_neg hn]
      case hc2 =>
        simp [binds, List.mem_cons, mediaTarget_ne_config, mediaTarget_ne_cache,
          mediaTarget_eq_iff, hn]
  have hv3 : ∀ t : String,
      dictInsert [(cfg.config_dir, "/config"), (cfg.cache_dir, "/cache"),
         (p1, "/media/" ++ pathName p1)] p2 t
      = [(cfg.config_dir, "/config"), (cfg.cache_dir, "/cache"),
         (p1, "/media/" ++ pathName p1), (p2, t)] := by
    intro t
    simp [dictInsert, beq_iff_eq, hd2, he2, hp]
  have hmain : buildVolumes cfg
      = [(cfg.config_dir, "/config"), (cfg.cache_dir, "/cache"),
         (p1, "/media/" ++ pathName p1),
         (p2, if pathName p2 = pathName p1 then ("/media/") ++ (pathName p1 ++ "_1")
              else ("/media/") ++ pathName p2)] := by
    simp only [buildVolumes, hm, hcm, hca, List.enum, List.enumFrom, h0, h1,
      addMediaMounts, hmp1, hv2, hmp2, hv3]
  rw [hmain]
  simp [binds]

lemma handedBinds_of_create (e : Env) (cfg : AppConfig)
    (hc : clientAvailable e = true) (hs : e.container_status = ApiResult.notFound) :
    handedBinds (create_container e cfg) = some (binds (buildVolumes cfg)) := by
  have hgcs : get_container_state e = Except.ok ContainerState.not_found := by
    simp [get_container_state, hc, hs]
  cases hcr : e.create_result <;>
    simp [create_container, hgcs, hc, hcr, handedBinds, handedSpec]


/-- C4: refuted on the code.  With media folders `/x/Movies`, `/y/Movies_2`,
`/z/Movies`, the third folder's target `/media/Movies` is taken, so the code
appends its index, producing `/media/Movies_2` — which is exactly the second
folder's target.  The disambiguated name is not re-checked against the
existing binds, so the mount targets handed to the engine are not pairwise
distinct. -/
theorem create_container_duplicate_targets :
    handedBinds (create_container envCreateOk cfgCollide) =
      some ["/config", "/cache", "/media/Movies", "/media/Movies_2", "/media/Movies_2"] ∧
    ¬ (["/config", "/cache", "/media/Movies", "/media/Movies_2",
        "/media/Movies_2"] : List String).Nodup := by
  exact ⟨by decide, by decide⟩

/-- C4 amended: for every pair of distinct configured media folder paths
(also distinct from the config/cache dirs, with the default container
mounts), the mount targets built by `create_container()` are pairwise
distinct, and when the two folders share a leaf name the later one's target
is deterministically disambiguated by appending its index. -/
theorem create_container_pair_targets_distinct
    (e : Env) (cfg : AppConfig) (p1 p2 : String)
    (hm : cfg.media_paths = [p1, p2])
    (hcc : cfg.container = {})
    (hp : p1 ≠ p2)
    (h12 : cfg.config_dir ≠ cfg.cache_dir)
    (hd1 : cfg.config_dir ≠ p1) (hd2 : cfg.config_dir ≠ p2)
    (he1 : cfg.cache_dir ≠ p1) (he2 : cfg.cache_dir ≠ p2)
    (hc : clientAvailable e = true)
    (hs : e.container_status = ApiResult.notFound) :
    handedBinds (create_container e cfg) =
      some ["/config", "/cache", "/media/" ++ pathName p1,
        if pathName p2 = pathName p1 then ("/media/") ++ (pathName p1 ++ "_1")
        else ("/media/") ++ pathName p2] ∧
    (∀ l, handedBinds (create_container e cfg) = some l → l.Nodup) := by
  have hbv := buildVolumes_pair cfg p1 p2 hm hcc hp h12 hd1 hd2 he1 he2
  have h2 := handedBinds_of_create e cfg hc hs
  rw [hbv] at h2
  refine ⟨h2, ?_⟩
  intro l hl
  rw [h2] at hl
  have hl2 := Option.some.inj hl
  rw [← hl2]
  exact targets2_nodup (pathName p1) (pathName p2)


/-- C4 witness: the pair `/a/Movies`, `/b/Movies` satisfies all hypotheses
and yields the two distinct targets `/media/Movies` and `/media/Movies_1`. -/
theorem create_container_pair_targets_distinct_witness :
    cfgPair.media_paths = ["/a/Movies", "/b/Movies"] ∧
    clientAvailable envCreateOk = true ∧
    (handedBinds (create_container envCreateOk cfgPair) =
      some ["/config", "/cache", "/media/" ++ pathName ("/a/Movies"),
        if pathName ("/b/Movies") = pathName ("/a/Movies") then
          "/media/" ++ (pathName ("/a/Movies") ++ "_1")
        else ("/media/") ++ pathName ("/b/Movies")] ∧
     (∀ l, handedBinds (create_container envCreateOk cfgPair) = some l → l.Nodup)) :=
  ⟨rfl, by decide,
   create_container_pair_targets_distinct envCreateOk cfgPair ("/a/Movies") "/b/Movies"
     rfl rfl (by decide) (by decide) (by decide) (by decide) (by decide) (by decide)
     (by decide) rfl⟩

/-- C8: refuted on the code as literally stated.  `create_container()` does
pass an engine-level restart policy keyword — `restart_policy={"Name": "no"}`
— to the engine's create endpoint, so a policy is set (its value is the
engine's never-restart policy). -/
theorem create_container_passes_restart_policy :
    (handedSpec (create_container envCreateOk cfgPair)).map CreateSpec.restart_policy =
      some (some ("no")) ∧
    (handedSpec (create_container envCreateOk cfgPair)).map CreateSpec.restart_policy ≠
      some none := by
  exact ⟨by decide, by decide⟩

/-- C8 amended: for every configuration under which creation is attempted,
the spec handed to the engine carries the restart policy `"no"` (never
restart): the engine never auto-restarts the container, the orchestrator
being authoritative over restarts. -/
theorem create_container_restart_policy_no (e : Env) (cfg : AppConfig) :
    Option.all (fun s => s.restart_policy == some ("no"))
      (handedSpec (create_container e cfg)) = true := by
  by_cases hc : clientAvailable e = false
  · simp [create_container, hc, handedSpec]
  · cases hg : get_container_state e with
    | error exc => simp [create_container, hc, hg, handedSpec]
    | ok st =>
        by_cases hst : st = ContainerState.not_found
        · cases hcr : e.create_result <;>
            simp [create_container, hc, hg, hst, hcr, handedSpec]
        · simp [create_container, hc, hg, hst, handedSpec]


/-- C3: refuted on the code.  When the container is running and the user
answers `No` (decline, not cancel), `closeEvent` does not abort: the event
is accepted, the daemon-stop-on-exit preference is consulted, and — the
preference being set — the container is stopped anyway and then the daemon
is stopped, all on the declined path. -/
theorem closeEvent_no_does_not_abort :
    closeEvent closeEnvNo =
      Except.ok (true,
        [CloseAction.stopLogStreaming, CloseAction.stopStatusPolling,
         CloseAction.queryContainerState, CloseAction.askUser,
         CloseAction.readStopDaemonPref, CloseAction.queryDaemonRunning,
         CloseAction.queryContainerState, CloseAction.callStopContainer,
         CloseAction.callStopDaemon]) := by
  rfl

/-- C3 amended: when teardown is invoked while the container is running and
the user cancels, the shutdown sequence aborts entirely — the close event is
rejected, and the daemon-stop-on-exit preference is never consulted, so
neither the container nor the daemon is stopped. -/
theorem closeEvent_cancel_aborts (ce : CloseEnv)
    (h1 : get_container_state ce.env1 = Except.ok ContainerState.running)
    (h2 : ce.reply = Reply.cancel) :
    closeEvent ce =
      Except.ok (false,
        [CloseAction.stopLogStreaming, CloseAction.stopStatusPolling,
         CloseAction.queryContainerState, CloseAction.askUser]) ∧
    (∀ accepted trace, closeEvent ce = Except.ok (accepted, trace) →
       CloseAction.readStopDaemonPref ∉ trace ∧
       CloseAction.callStopDaemon ∉ trace ∧
       CloseAction.callStopContainer ∉ trace) := by
  have he : closeEvent ce =
      Except.ok (false,
        [CloseAction.stopLogStreaming, CloseAction.stopStatusPolling,
         CloseAction.queryContainerState, CloseAction.askUser]) := by
    simp [closeEvent, h1, h2]
  refine ⟨he, ?_⟩
  intro accepted trace ht
  rw [he] at ht
  have hpair := Except.ok.inj ht
  injection hpair with ha htr
  rw [← htr]
  exact ⟨by decide, by decide, by decide⟩


/-- C3 witness: the concrete cancelled teardown satisfies both hypotheses
and aborts with no preference read and no stop calls. -/
theorem closeEvent_cancel_aborts_witness :
    get_container_state closeEnvCancel.env1 = Except.ok ContainerState.running ∧
    closeEnvCancel.reply = Reply.cancel ∧
    (closeEvent closeEnvCancel =
      Except.ok (false,
        [CloseAction.stopLogStreaming, CloseAction.stopStatusPolling,
         CloseAction.queryContainerState, CloseAction.askUser]) ∧
     (∀ accepted trace, closeEvent closeEnvCancel = Except.ok (accepted, trace) →
        CloseAction.readStopDaemonPref ∉ trace ∧
        CloseAction.callStopDaemon ∉ trace ∧
        CloseAction.callStopContainer ∉ trace)) :=
  ⟨rfl, rfl, closeEvent_cancel_aborts closeEnvCancel rfl rfl⟩

/-- C7: the image-pull task's final result equals the post-pull
image-presence re-check, and two runs whose post-pull presence views agree
report the same final result whatever their progress streams and terminal
stream status were. -/
theorem imagePullWorker_final_from_presence (e e2 : Env) (cfg cfg2 : AppConfig)
    (hclient : clientAvailable e = clientAvailable e2)
    (hafter : e.image_present_after_pull = e2.image_present_after_pull) :
    (imagePullWorkerRun e cfg).2 = is_image_pulled_after e ∧
    (imagePullWorkerRun e cfg).2 = (imagePullWorkerRun e2 cfg2).2 := by
  constructor
  · rfl
  · show is_image_pulled_after e = is_image_pulled_after e2
    simp [is_image_pulled_after, hclient, hafter]



/-- C7 witness: two concrete runs with contradictory stream contents (one
ends in an adapter error, one in the success banner) but the same post-pull
presence answer report the same final result, namely that answer. -/
theorem imagePullWorker_final_from_presence_witness :
    clientAvailable envPullErrStream = clientAvailable envPullOkStream ∧
    envPullErrStream.image_present_after_pull = envPullOkStream.image_present_after_pull ∧
    ((imagePullWorkerRun envPullErrStream cfgPair).2 = is_image_pulled_after envPullErrStream ∧
     (imagePullWorkerRun envPullErrStream cfgPair).2 =
       (imagePullWorkerRun envPullOkStream cfgPair).2) :=
  ⟨rfl, rfl,
   imagePullWorker_final_from_presence envPullErrStream envPullOkStream cfgPair cfgPair
     rfl rfl⟩

/-- C9: refuted on the code as universally stated.  `load()` does not
deduplicate, so a persisted list can already hold a path twice; adding that
path is then a no-op twice over, and the persisted list keeps two
occurrences, not exactly one. -/
theorem add_media_path_duplicate_initial_state :
    ((add_media_path (add_media_path (loadPersist ["/mnt/a", "/mnt/a"]) "/mnt/a")
        "/mnt/a").disk).count ("/mnt/a") = 2 ∧
    ¬ ((add_media_path (add_media_path (loadPersist ["/mnt/a", "/mnt/a"]) "/mnt/a")
        "/mnt/a").disk).count ("/mnt/a") = 1 := by
  exact ⟨by decide, by decide⟩

/-- C9 amended: starting from any loaded configuration in which the path
occurs at most once (in particular any duplicate-free persisted list),
adding the same media path twice leaves the persisted media-path list with
exactly one occurrence of it — the second add is a no-op. -/
theorem add_media_path_idempotent (d : List String) (p : String)
    (h : d.count p ≤ 1) :
    ((add_media_path (add_media_path (loadPersist d) p) p).disk).count p = 1 := by
  by_cases hp : p ∈ d
  · have h1 : d.count p = 1 :=
      Nat.le_antisymm h (List.count_pos_iff.mpr hp)
    simp [add_media_path, loadPersist, hp, h1]
  · simp only [add_media_path, loadPersist, hp, if_neg, if_false]
    have hmem : p ∈ d ++ [p] := by simp
    simp [hmem, List.count_append, List.count_eq_zero.mpr hp]

/-- C9 witness: from the empty persisted list, two adds of the same path
leave exactly one occurrence. -/
theorem add_media_path_idempotent_witness :
    (([] : List String).count ("/mnt/movies") ≤ 1) ∧
    ((add_media_path (add_media_path (loadPersist []) "/mnt/movies")
        "/mnt/movies").disk).count ("/mnt/movies") = 1 :=
  ⟨by decide, add_media_path_idempotent [] "/mnt/movies" (by decide)⟩

lemma coerceMedia_no_other (j : J) :
    coerceMedia j = Except.error PyExc.typeError ∨ ∃ l, coerceMedia j = Except.ok l := by
  cases j <;> simp [coerceMedia]

lemma coerceContainer_no_other (j : J) :
    coerceContainer j = Except.error PyExc.typeError ∨ ∃ v, coerceContainer j = Except.ok v := by
  cases j with
  | obj kvs =>
      by_cases hk : (kvs.all fun kv => containerConfigKeys.contains kv.1) = true
      · refine Or.inr ⟨J.obj kvs, ?_⟩
        simp only [coerceContainer]
        rw [if_pos hk]
      · refine Or.inl ?_
        simp only [coerceContainer]
        rw [if_neg hk]
  | null => exact Or.inr ⟨J.null, rfl⟩
  | jbool b => exact Or.inr ⟨J.jbool b, rfl⟩
  | num n => exact Or.inr ⟨J.num n, rfl⟩
  | str s2 => exact Or.inr ⟨J.str s2, rfl⟩
  | arr xs => exact Or.inr ⟨J.arr xs, rfl⟩

lemma pyAppConfigOfJson_ok_or_typeError (j : J) :
    pyAppConfigOfJson j = Except.error PyExc.typeError ∨
    ∃ c, pyAppConfigOfJson j = Except.ok c := by
  cases j with
  | obj kvs =>
      by_cases hk : (kvs.all fun kv => appConfigKeys.contains kv.1) = true
      · rcases coerceMedia_no_other ((jGet kvs ("media_paths")).getD (J.arr [])) with
          hme | ⟨l, hme⟩
        · refine Or.inl ?_
          simp only [pyAppConfigOfJson]
          rw [if_pos hk, hme]
        · rcases coerceContainer_no_other ((jGet kvs ("container")).getD
              defaultPyAppConfig.container) with hco | ⟨v, hco⟩
          · refine Or.inl ?_
            simp only [pyAppConfigOfJson]
            rw [if_pos hk, hme, hco]
          · refine Or.inr ⟨{
                config_dir :=
                  coercePath ((jGet kvs ("config_dir")).getD defaultPyAppConfig.config_dir),
                cache_dir :=
                  coercePath ((jGet kvs ("cache_dir")).getD defaultPyAppConfig.cache_dir),
                media_paths := l,
                stop_daemon_on_exit := (jGet kvs ("stop_daemon_on_exit")).getD (J.jbool false),
                enable_hw_accel := (jGet kvs ("enable_hw_accel")).getD (J.jbool true),
                hw_accel_type := (jGet kvs ("hw_accel_type")).getD (J.str ("vaapi")),
                container := v }, ?_⟩
            simp only [pyAppConfigOfJson]
            rw [if_pos hk, hme, hco]
      · refine Or.inl ?_
        simp only [pyAppConfigOfJson]
        rw [if_neg hk]
  | null => exact Or.inl rfl
  | jbool b => exact Or.inl rfl
  | num n => exact Or.inl rfl
  | str s2 => exact Or.inl rfl
  | arr xs => exact Or.inl rfl

/-- C10: refuted on the code.  A config file whose bytes are not valid UTF-8
is an on-disk malformed state on which `json.load` raises
`UnicodeDecodeError` while reading the file; the
`except (json.JSONDecodeError, TypeError)` clause at config.py line 80 does
not catch it (it is a sibling of `JSONDecodeError`, not a subclass), so
`ConfigManager.load()` propagates the fault and returns no configuration
value. -/
theorem ConfigManager_load_raises_on_undecodable :
    ConfigManager.load DiskState.undecodableBytes =
      Except.error PyExc.unicodeDecodeError ∧
    (ConfigManager.load DiskState.undecodableBytes).toOption = none := by
  exact ⟨rfl, rfl⟩

/-- C10 amended: for every on-disk state whose bytes decode as text — file
missing, decodable-but-malformed JSON, or JSON of any shape whatsoever —
`ConfigManager.load()` returns a configuration value (the parsed one, or the
default on `JSONDecodeError`/`TypeError`) instead of propagating a fault. -/
theorem ConfigManager_load_total_on_decodable (s : DiskState)
    (h : s ≠ DiskState.undecodableBytes) :
    ∃ c, ConfigManager.load s = Except.ok c := by
  cases s with
  | missing => exact ⟨defaultPyAppConfig, rfl⟩
  | undecodableBytes => exact absurd rfl h
  | malformedJson => exact ⟨defaultPyAppConfig, rfl⟩
  | wellFormed d =>
      show ∃ c, catchLoadExc (pyAppConfigOfJson d) = Except.ok c
      rcases pyAppConfigOfJson_ok_or_typeError d with hd | ⟨c, hd⟩
      · rw [hd]
        exact ⟨defaultPyAppConfig, rfl⟩
      · rw [hd]
        exact ⟨c, rfl⟩

/-- C10 witness: a decodable but malformed-JSON file satisfies the
hypothesis and loads as a configuration value (the default). -/
theorem ConfigManager_load_total_on_decodable_witness :
    (DiskState.malformedJson ≠ DiskState.undecodableBytes) ∧
    (∃ c, ConfigManager.load DiskState.malformedJson = Except.ok c) :=
  ⟨fun h => DiskState.noConfusion h,
   ConfigManager_load_total_on_decodable DiskState.malformedJson
     (fun h => DiskState.noConfusion h)⟩
